import Mathlib

/-!
Shallow embedding of the Website Image Asset Registry of `main.py`
(the `/api/website-images` endpoint family), together with proofs of
the behavioural properties stated in the specification.

The MongoDB collection `website_images_collection` is modelled as an
association list of documents keyed by `_id`; the `public/images`
directory is modelled as the list of file names it holds.  Each HTTP
handler becomes a pure function from a registry state (plus request
parameters, the generated uuid and the current time) to a result —
`Except HError resp` mirroring `raise HTTPException` versus a JSON
response — paired with the successor state.
-/

namespace Mechgenz

/-- One entry of the static `WEBSITE_IMAGES_CONFIG` dictionary. -/
structure SlotConfig where
  name : String
  description : String
  default_url : String
  locations : List String
  recommended_size : String
  category : String
deriving Repr, DecidableEq

/-- A document of the `website_images` collection (`_id` is `id`). -/
structure ImageDoc where
  id : String
  name : String
  description : String
  current_url : String
  default_url : String
  locations : List String
  recommended_size : String
  category : String
  created_at : Nat
  updated_at : Nat
deriving Repr, DecidableEq

/-- A document as returned by the listing endpoint: the `_id` key has
been popped and used as the dictionary key. -/
structure ImageView where
  name : String
  description : String
  current_url : String
  default_url : String
  locations : List String
  recommended_size : String
  category : String
  created_at : Nat
  updated_at : Nat
deriving Repr, DecidableEq

/-- Drop the `_id` field (`image_doc.pop("_id")` in the listing). -/
def ImageDoc.view (d : ImageDoc) : ImageView :=
  { name := d.name, description := d.description, current_url := d.current_url,
    default_url := d.default_url, locations := d.locations,
    recommended_size := d.recommended_size, category := d.category,
    created_at := d.created_at, updated_at := d.updated_at }

/-- The multipart upload: FastAPI exposes `filename` and `content_type`,
either of which may be missing. -/
structure UploadFile where
  filename : Option String
  content_type : Option String
deriving Repr, DecidableEq

/-- An `HTTPException`: status code and detail message. -/
structure HError where
  status : Nat
  detail : String
deriving Repr, DecidableEq

/-- The mutable world the handlers touch: the Mongo collection and the
`public/images` directory. -/
structure RegistryState where
  store : List ImageDoc
  files : List String
deriving Repr, DecidableEq

/-- `WEBSITE_IMAGES_CONFIG`: the static catalog defined at module load. -/
def WEBSITE_IMAGES_CONFIG : List (String × SlotConfig) :=
  [ ("logo",
     { name := "Company Logo",
       description := "Main company logo displayed in header and footer",
       default_url := "/mechgenz-logo.jpg",
       locations := ["Header", "Footer", "Admin Panel"],
       recommended_size := "200x200px",
       category := "branding" }),
    ("hero_slide_1",
     { name := "Hero Slide 1",
       description := "First slide in the hero carousel",
       default_url := "https://images.pexels.com/photos/162553/keys-workshop-mechanic-tools-162553.jpeg?auto=compress&cs=tinysrgb&w=1260&h=750&dpr=1",
       locations := ["Hero Section"],
       recommended_size := "1920x1080px",
       category := "hero" }),
    ("hero_slide_2",
     { name := "Hero Slide 2",
       description := "Second slide in the hero carousel",
       default_url := "https://images.pexels.com/photos/1148820/pexels-photo-1148820.jpeg?auto=compress&cs=tinysrgb&w=1260&h=750&dpr=1",
       locations := ["Hero Section"],
       recommended_size := "1920x1080px",
       category := "hero" }),
    ("hero_slide_3",
     { name := "Hero Slide 3",
       description := "Third slide in the hero carousel",
       default_url := "https://images.pexels.com/photos/236705/pexels-photo-236705.jpeg?auto=compress&cs=tinysrgb&w=1260&h=750&dpr=1",
       locations := ["Hero Section"],
       recommended_size := "1920x1080px",
       category := "hero" }),
    ("about_main",
     { name := "About Section Main Image",
       description := "Main image displayed in the about section",
       default_url := "https://images.pexels.com/photos/1216589/pexels-photo-1216589.jpeg?auto=compress&cs=tinysrgb&w=1260&h=750&dpr=1",
       locations := ["About Section"],
       recommended_size := "800x600px",
       category := "about" }),
    ("mechanical_suppliers",
     { name := "Mechanical Suppliers Background",
       description := "Background image for mechanical suppliers trading category",
       default_url := "https://images.pexels.com/photos/162553/keys-workshop-mechanic-tools-162553.jpeg?auto=compress&cs=tinysrgb&w=800&h=600&dpr=1",
       locations := ["Trading Section - Mechanical Suppliers"],
       recommended_size := "800x600px",
       category := "trading" }),
    ("electrical_suppliers",
     { name := "Electrical Suppliers Background",
       description := "Background image for electrical suppliers trading category",
       default_url := "https://images.pexels.com/photos/257736/pexels-photo-257736.jpeg?auto=compress&cs=tinysrgb&w=800&h=600&dpr=1",
       locations := ["Trading Section - Electrical Suppliers"],
       recommended_size := "800x600px",
       category := "trading" }),
    ("plumbing_suppliers",
     { name := "Plumbing Suppliers Background",
       description := "Background image for plumbing suppliers trading category",
       default_url := "https://images.pexels.com/photos/1216589/pexels-photo-1216589.jpeg?auto=compress&cs=tinysrgb&w=800&h=600&dpr=1",
       locations := ["Trading Section - Plumbing Suppliers"],
       recommended_size := "800x600px",
       category := "trading" }),
    ("fire_fighting_suppliers",
     { name := "Fire Fighting Suppliers Background",
       description := "Background image for fire fighting suppliers trading category",
       default_url := "https://images.pexels.com/photos/280221/pexels-photo-280221.jpeg?auto=compress&cs=tinysrgb&w=800&h=600&dpr=1",
       locations := ["Trading Section - Fire Fighting Suppliers"],
       recommended_size := "800x600px",
       category := "trading" }),
    ("portfolio_civil_1",
     { name := "Civil Structure Project 1",
       description := "Featured civil structure project image",
       default_url := "https://images.pexels.com/photos/1216589/pexels-photo-1216589.jpeg?auto=compress&cs=tinysrgb&w=800&h=600&dpr=1",
       locations := ["Portfolio Section - Civil Structure"],
       recommended_size := "800x600px",
       category := "portfolio" }),
    ("portfolio_civil_2",
     { name := "Civil Structure Project 2",
       description := "Featured civil structure project image",
       default_url := "https://images.pexels.com/photos/162553/keys-workshop-mechanic-tools-162553.jpeg?auto=compress&cs=tinysrgb&w=800&h=600&dpr=1",
       locations := ["Portfolio Section - Civil Structure"],
       recommended_size := "800x600px",
       category := "portfolio" }),
    ("portfolio_road_1",
     { name := "Road Infrastructure Project 1",
       description := "Featured road infrastructure project image",
       default_url := "https://images.pexels.com/photos/280221/pexels-photo-280221.jpeg?auto=compress&cs=tinysrgb&w=800&h=600&dpr=1",
       locations := ["Portfolio Section - Road Infrastructure"],
       recommended_size := "800x600px",
       category := "portfolio" }),
    ("portfolio_road_2",
     { name := "Road Infrastructure Project 2",
       description := "Featured road infrastructure project image",
       default_url := "https://images.pexels.com/photos/1202723/pexels-photo-1202723.jpeg?auto=compress&cs=tinysrgb&w=800&h=600&dpr=1",
       locations := ["Portfolio Section - Road Infrastructure"],
       recommended_size := "800x600px",
       category := "portfolio" }),
    ("portfolio_fitout_1",
     { name := "Fit Out Project 1",
       description := "Featured fit out project image",
       default_url := "https://images.pexels.com/photos/1571460/pexels-photo-1571460.jpeg?auto=compress&cs=tinysrgb&w=800&h=600&dpr=1",
       locations := ["Portfolio Section - Fit Out"],
       recommended_size := "800x600px",
       category := "portfolio" }),
    ("portfolio_fitout_2",
     { name := "Fit Out Project 2",
       description := "Featured fit out project image",
       default_url := "https://images.pexels.com/photos/1571463/pexels-photo-1571463.jpeg?auto=compress&cs=tinysrgb&w=800&h=600&dpr=1",
       locations := ["Portfolio Section - Fit Out"],
       recommended_size := "800x600px",
       category := "portfolio" }),
    ("portfolio_special_1",
     { name := "Special Installation Project 1",
       description := "Featured special installation project image",
       default_url := "https://images.pexels.com/photos/1216589/pexels-photo-1216589.jpeg?auto=compress&cs=tinysrgb&w=800&h=600&dpr=1",
       locations := ["Portfolio Section - Special Installation"],
       recommended_size := "800x600px",
       category := "portfolio" }),
    ("portfolio_special_2",
     { name := "Special Installation Project 2",
       description := "Featured special installation project image",
       default_url := "https://images.pexels.com/photos/162553/keys-workshop-mechanic-tools-162553.jpeg?auto=compress&cs=tinysrgb&w=800&h=600&dpr=1",
       locations := ["Portfolio Section - Special Installation"],
       recommended_size := "800x600px",
       category := "portfolio" }) ]

/-- `image_id in WEBSITE_IMAGES_CONFIG` and `WEBSITE_IMAGES_CONFIG[image_id]`
as one lookup (Python dict keys are unique, so first match is the match). -/
def configLookup (i : String) : Option SlotConfig :=
  (WEBSITE_IMAGES_CONFIG.find? (fun p => p.1 == i)).map Prod.snd

/-- `collection.find_one({"_id": i})`. -/
def findOne : List ImageDoc → String → Option ImageDoc
  | [], _ => none
  | d :: ds, i => if d.id = i then some d else findOne ds i

/-- `collection.update_one({"_id": i}, {"$set": ...})`: apply `f` to the
first matching document; second component is `matched_count`. -/
def updateOneSet : List ImageDoc → String → (ImageDoc → ImageDoc) → List ImageDoc × Nat
  | [], _, _ => ([], 0)
  | d :: ds, i, f =>
    if d.id = i then (f d :: ds, 1)
    else (d :: (updateOneSet ds i f).1, (updateOneSet ds i f).2)

/-- `collection.delete_one({"_id": i})`: remove the first matching
document; second component is `deleted_count`. -/
def deleteOne : List ImageDoc → String → List ImageDoc × Nat
  | [], _ => ([], 0)
  | d :: ds, i =>
    if d.id = i then (ds, 1)
    else (d :: (deleteOne ds i).1, (deleteOne ds i).2)

/-- Writing the uploaded bytes under `public/images/<fn>`. -/
def writeFile (st : RegistryState) (fn : String) : RegistryState :=
  if fn ∈ st.files then st else { st with files := st.files ++ [fn] }

/-- `os.path.exists` then best-effort `os.remove` of `public/images/<fn>`. -/
def removeFile (st : RegistryState) (fn : String) : RegistryState :=
  if fn ∈ st.files then { st with files := st.files.erase fn } else st

/-- `cs` starts with `pat` (character-wise prefix test). -/
def charsStartWith : List Char → List Char → Bool
  | _, [] => true
  | [], _ :: _ => false
  | c :: cs, p :: ps => c == p && charsStartWith cs ps

/-- Python `s.startswith(pre)`. -/
def strStartsWith (s pre : String) : Bool :=
  charsStartWith s.toList pre.toList

/-- Python `s.replace(pat, rep)` for a non-empty `pat`: scan left to
right, replacing each non-overlapping occurrence.  The fuel argument is
the length of the scanned list, which each step strictly consumes. -/
def replaceCharsFuel : Nat → List Char → List Char → List Char → List Char
  | 0, _, _, _ => []
  | n + 1, cs, pat, rep =>
    match cs with
    | [] => []
    | c :: cs2 =>
      if charsStartWith cs pat && pat.length != 0 then
        rep ++ replaceCharsFuel n (cs.drop pat.length) pat rep
      else c :: replaceCharsFuel n cs2 pat rep

def strReplace (s pat rep : String) : String :=
  String.mk (replaceCharsFuel s.toList.length s.toList pat.toList rep.toList)

/-- Index of the last occurrence of `c` in `cs` (Python `str.rfind`,
except that absence is `none` rather than `-1`). -/
def lastIndexOfAux (cs : List Char) (c : Char) (i : Nat) (acc : Option Nat) : Option Nat :=
  match cs with
  | [] => acc
  | x :: xs => lastIndexOfAux xs c (i + 1) (if x = c then some i else acc)

def lastIndexOf (cs : List Char) (c : Char) : Option Nat :=
  lastIndexOfAux cs c 0 none

/-- `os.path.splitext(p)[1]` (posix): the extension starts at the last
dot, provided it lies right of the last separator and some earlier
character of the basename is not itself a dot. -/
def splitextExt (p : String) : String :=
  let cs := p.toList
  match lastIndexOf cs '.' with
  | none => ""
  | some dotIdx =>
    let fnIdx : Nat :=
      match lastIndexOf cs '/' with
      | none => 0
      | some k => k + 1
    if fnIdx ≤ dotIdx ∧ ((cs.drop fnIdx).take (dotIdx - fnIdx)).any (fun ch => ch != '.') then
      String.mk (cs.drop dotIdx)
    else ""

/-- `os.path.splitext(file.filename)[1] if file.filename else ".jpg"`
(Python truthiness: `None` and `""` both fall back to `.jpg`). -/
def uploadExt (file : UploadFile) : String :=
  match file.filename with
  | none => ".jpg"
  | some fn => if fn = "" then ".jpg" else splitextExt fn

/-- `file.content_type and file.content_type.startswith("image/")`
(an absent or empty content type fails the check either way). -/
def isImageContentType : Option String → Bool
  | none => false
  | some s => strStartsWith s "image/"

/-- The document literal built from catalog metadata on upsert paths. -/
def mkImageDoc (i : String) (cfg : SlotConfig) (current : String) (now : Nat) : ImageDoc :=
  { id := i, name := cfg.name, description := cfg.description,
    current_url := current, default_url := cfg.default_url,
    locations := cfg.locations, recommended_size := cfg.recommended_size,
    category := cfg.category, created_at := now, updated_at := now }

/-- The file-deletion step shared by both delete modes: if `current_url`
points under `/images/`, strip that prefix (Python `str.replace`, i.e.
every occurrence) and remove the physical file best-effort. -/
def deleteLocalFile (st : RegistryState) (current_url : String) : RegistryState :=
  if strStartsWith current_url "/images/" then
    removeFile st (strReplace current_url "/images/" "")
  else st

/-- Response of the upload endpoint. -/
structure UploadResponse where
  success : Bool
  message : String
  new_url : String
deriving Repr, DecidableEq

/-- Response of the metadata-update endpoint. -/
structure SimpleResponse where
  success : Bool
  message : String
deriving Repr, DecidableEq

/-- Response of the reset endpoint. -/
structure ResetResponse where
  success : Bool
  message : String
  default_url : String
deriving Repr, DecidableEq

/-- Response of the delete endpoint (`default_url` only in `image_only`). -/
structure DeleteResponse where
  success : Bool
  message : String
  action : String
  default_url : Option String
deriving Repr, DecidableEq

def exceptIsOk : Except HError α → Bool
  | Except.ok _ => true
  | Except.error _ => false

/-- `GET /api/website-images`: iterate the collection cursor, pop each
document's `_id` and key the result dictionary by it.  Nothing is
synthesized from the catalog. -/
def get_website_images (st : RegistryState) : List (String × ImageView) :=
  st.store.map (fun d => (d.id, d.view))

/-- `GET /api/website-images/categories`: distinct `category` values of
the stored documents. -/
def get_image_categories (st : RegistryState) : List String :=
  (st.store.map ImageDoc.category).dedup

/-- `POST /api/website-images/{image_id}/upload`. -/
def upload_website_image (st : RegistryState) (image_id : String) (file : UploadFile)
    (uuid : String) (now : Nat) : Except HError UploadResponse × RegistryState :=
  match configLookup image_id with
  | none => (Except.error { status := 404, detail := "Image configuration not found" }, st)
  | some config =>
    if isImageContentType file.content_type then
      let unique_filename := uuid ++ uploadExt file
      let st1 := writeFile st unique_filename
      let new_url := "/images/" ++ unique_filename
      match findOne st1.store image_id with
      | some _ =>
        (Except.ok { success := true, message := "Image uploaded successfully", new_url := new_url },
         { st1 with store := (updateOneSet st1.store image_id
             (fun d => { d with current_url := new_url, updated_at := now })).1 })
      | none =>
        (Except.ok { success := true, message := "Image uploaded successfully", new_url := new_url },
         { st1 with store := st1.store ++ [mkImageDoc image_id config new_url now] })
    else
      (Except.error { status := 400, detail := "File must be an image" }, st)

/-- `PUT /api/website-images/{image_id}`. -/
def update_website_image (st : RegistryState) (image_id nm desc : String) (now : Nat) :
    Except HError SimpleResponse × RegistryState :=
  let r := updateOneSet st.store image_id
    (fun d => { d with name := nm, description := desc, updated_at := now })
  if r.2 = 0 then
    (Except.error { status := 404, detail := "Image not found" }, { st with store := r.1 })
  else
    (Except.ok { success := true, message := "Image updated successfully" }, { st with store := r.1 })

/-- `DELETE /api/website-images/{image_id}/reset`. -/
def reset_website_image (st : RegistryState) (image_id : String) (now : Nat) :
    Except HError ResetResponse × RegistryState :=
  match configLookup image_id with
  | none => (Except.error { status := 404, detail := "Image configuration not found" }, st)
  | some config =>
    let default_url := config.default_url
    let r := updateOneSet st.store image_id
      (fun d => { d with current_url := default_url, updated_at := now })
    if r.2 = 0 then
      (Except.error { status := 404, detail := "Image not found" }, { st with store := r.1 })
    else
      (Except.ok { success := true, message := "Image reset to default", default_url := default_url },
       { st with store := r.1 })

/-- `DELETE /api/website-images/{image_id}?delete_type=...`. -/
def delete_website_image (st : RegistryState) (image_id delete_type : String) (now : Nat) :
    Except HError DeleteResponse × RegistryState :=
  if delete_type = "image_only" ∨ delete_type = "complete" then
    let existing := findOne st.store image_id
    if delete_type = "image_only" then
      match configLookup image_id with
      | none => (Except.error { status := 404, detail := "Image configuration not found" }, st)
      | some config =>
        let default_url := config.default_url
        match existing with
        | some doc =>
          let st1 := deleteLocalFile st doc.current_url
          (Except.ok { success := true, message := "Custom image deleted and reset to default",
                       action := "image_only", default_url := some default_url },
           { st1 with store := (updateOneSet st1.store image_id
               (fun d => { d with current_url := default_url, updated_at := now })).1 })
        | none =>
          (Except.ok { success := true, message := "Custom image deleted and reset to default",
                       action := "image_only", default_url := some default_url },
           { st with store := st.store ++ [mkImageDoc image_id config default_url now] })
    else
      match existing with
      | some doc =>
        let st1 := deleteLocalFile st doc.current_url
        let r := deleteOne st1.store image_id
        if r.2 > 0 then
          (Except.ok { success := true, message := "Image configuration deleted completely",
                       action := "complete", default_url := none }, { st1 with store := r.1 })
        else
          (Except.error { status := 404, detail := "Image not found in database" },
           { st1 with store := r.1 })
      | none =>
        (Except.ok { success := true, message := "Image configuration was already deleted",
                     action := "complete", default_url := none }, st)
  else
    (Except.error { status := 400, detail := "Invalid delete_type. Must be image_only or complete" }, st)

/-- Observer: look a slot id up in the dictionary returned by the
listing endpoint. -/
def listingLookup : List (String × ImageView) → String → Option ImageView
  | [], _ => none
  | (k, v) :: es, s => if k = s then some v else listingLookup es s

/-! ### Concrete fixtures used by the witness theorems -/

def emptyState : RegistryState := { store := [], files := [] }

/-- The catalog entry of slot `logo`. -/
def logoCfg : SlotConfig :=
  { name := "Company Logo",
    description := "Main company logo displayed in header and footer",
    default_url := "/mechgenz-logo.jpg",
    locations := ["Header", "Footer", "Admin Panel"],
    recommended_size := "200x200px",
    category := "branding" }

/-- A valid multipart image upload. -/
def imgFile : UploadFile := { filename := some "photo.jpg", content_type := some "image/jpeg" }

/-- An override record for slot `logo` holding a custom upload. -/
def logoDoc : ImageDoc :=
  { id := "logo", name := "Old Name", description := "Old Desc",
    current_url := "/images/old.png", default_url := "/mechgenz-logo.jpg",
    locations := ["Header"], recommended_size := "200x200px",
    category := "branding", created_at := 5, updated_at := 6 }

/-- A registry state holding that one override record and its file. -/
def oneState : RegistryState := { store := [logoDoc], files := ["old.png"] }

/-! ### Basic lemmas about the store operations -/

theorem writeFile_store (st : RegistryState) (fn : String) :
    (writeFile st fn).store = st.store := by
  unfold writeFile; split <;> rfl

theorem removeFile_store (st : RegistryState) (fn : String) :
    (removeFile st fn).store = st.store := by
  unfold removeFile; split <;> rfl

theorem deleteLocalFile_store (st : RegistryState) (u : String) :
    (deleteLocalFile st u).store = st.store := by
  unfold deleteLocalFile; split
  · exact removeFile_store st _
  · rfl

theorem findOne_eq_none_of_not_mem {store : List ImageDoc} {i : String}
    (h : i ∉ store.map ImageDoc.id) : findOne store i = none := by
  induction store with
  | nil => rfl
  | cons d ds ih =>
    simp only [List.map_cons, List.mem_cons, not_or] at h
    have hne : ¬ d.id = i := fun he => h.1 he.symm
    rw [findOne, if_neg hne]
    exact ih h.2

theorem updateOneSet_of_findOne_none {store : List ImageDoc} {i : String}
    (f : ImageDoc → ImageDoc) (h : findOne store i = none) :
    updateOneSet store i f = (store, 0) := by
  induction store with
  | nil => rfl
  | cons d ds ih =>
    rw [findOne] at h
    by_cases hd : d.id = i
    · rw [if_pos hd] at h; exact absurd h (by simp)
    · rw [if_neg hd] at h
      simp only [updateOneSet, if_neg hd, ih h]

theorem updateOneSet_of_findOne_some {store : List ImageDoc} {i : String} {d : ImageDoc}
    (f : ImageDoc → ImageDoc) (hf : ∀ e, (f e).id = e.id)
    (h : findOne store i = some d) :
    (updateOneSet store i f).2 = 1 ∧
    findOne (updateOneSet store i f).1 i = some (f d) := by
  induction store with
  | nil => exact absurd h (by simp [findOne])
  | cons e es ih =>
    rw [findOne] at h
    by_cases he : e.id = i
    · rw [if_pos he] at h
      obtain rfl : e = d := by injection h
      refine ⟨by simp [updateOneSet, if_pos he], ?_⟩
      simp only [updateOneSet, if_pos he, findOne]
      rw [if_pos (by rw [hf e]; exact he)]
    · rw [if_neg he] at h
      obtain ⟨h1, h2⟩ := ih h
      refine ⟨by simp [updateOneSet, if_neg he, h1], ?_⟩
      simp only [updateOneSet, if_neg he, findOne]
      exact h2

theorem deleteOne_of_findOne_none {store : List ImageDoc} {i : String}
    (h : findOne store i = none) : deleteOne store i = (store, 0) := by
  induction store with
  | nil => rfl
  | cons d ds ih =>
    rw [findOne] at h
    by_cases hd : d.id = i
    · rw [if_pos hd] at h; exact absurd h (by simp)
    · rw [if_neg hd] at h
      simp only [deleteOne, if_neg hd, ih h]

theorem deleteOne_count_of_findOne_some {store : List ImageDoc} {i : String} {d : ImageDoc}
    (h : findOne store i = some d) : (deleteOne store i).2 = 1 := by
  induction store with
  | nil => exact absurd h (by simp [findOne])
  | cons e es ih =>
    rw [findOne] at h
    by_cases he : e.id = i
    · simp [deleteOne, if_pos he]
    · rw [if_neg he] at h
      simp only [deleteOne, if_neg he]
      exact ih h

theorem findOne_deleteOne_of_nodup {store : List ImageDoc} (i : String)
    (h : (store.map ImageDoc.id).Nodup) : findOne (deleteOne store i).1 i = none := by
  induction store with
  | nil => rfl
  | cons d ds ih =>
    rw [List.map_cons, List.nodup_cons] at h
    by_cases hd : d.id = i
    · simp only [deleteOne, if_pos hd]
      exact findOne_eq_none_of_not_mem (hd ▸ h.1)
    · simp only [deleteOne, if_neg hd, findOne]
      exact ih h.2

theorem findOne_append_single_of_none {store : List ImageDoc} {i : String}
    (h : findOne store i = none) (d : ImageDoc) :
    findOne (store ++ [d]) i = if d.id = i then some d else none := by
  induction store with
  | nil => rfl
  | cons e es ih =>
    rw [findOne] at h
    by_cases he : e.id = i
    · rw [if_pos he] at h; exact absurd h (by simp)
    · rw [if_neg he] at h
      simp only [List.cons_append, findOne, if_neg he]
      exact ih h

/-! ### Claim theorems -/

/-- C1, counterexample: slot `logo` is in the Config Catalog, yet with an
empty override store the listing contains no entry for it at all — the
endpoint iterates only the stored documents and synthesizes nothing from
catalog defaults, so the empty store does not yield the all-default view. -/
theorem get_website_images_empty_store_cex :
    (configLookup "logo").isSome = true ∧
    listingLookup (get_website_images { store := [], files := [] }) "logo" = none :=
  ⟨rfl, rfl⟩

/-- C1, amended: the listing returns exactly the override records present
in the store, keyed by slot id with the `_id` field popped; a slot with no
override record (in the catalog or not) is absent from the listing, and
the empty override store yields the empty listing without error. -/
theorem get_website_images_overrides_only (st : RegistryState) (s : String) :
    listingLookup (get_website_images st) s = (findOne st.store s).map ImageDoc.view ∧
    get_website_images { store := [], files := [] } = [] := by
  refine ⟨?_, rfl⟩
  show listingLookup (st.store.map fun d => (d.id, d.view)) s = _
  induction st.store with
  | nil => rfl
  | cons d ds ih =>
    rw [List.map_cons, listingLookup, findOne]
    by_cases h : d.id = s
    · rw [if_pos h, if_pos h]; rfl
    · rw [if_neg h, if_neg h]
      exact ih

/-- C3: for a slot id outside the Config Catalog, both the upload and the
reset endpoint fail with HTTP 404 ("Image configuration not found") and
leave the whole state — override store and filesystem — unchanged. -/
theorem upload_reset_unknown_slot (st : RegistryState) (slot : String)
    (h : configLookup slot = none) (file : UploadFile) (uuid : String) (t : Nat) :
    upload_website_image st slot file uuid t =
      (Except.error { status := 404, detail := "Image configuration not found" }, st) ∧
    reset_website_image st slot t =
      (Except.error { status := 404, detail := "Image configuration not found" }, st) := by
  constructor
  · simp [upload_website_image, h]
  · simp [reset_website_image, h]

/-- C3 witness at slot "missing_slot" on the empty state. -/
theorem upload_reset_unknown_slot_witness :
    upload_website_image { store := [], files := [] } "missing_slot"
        { filename := some "a.png", content_type := some "image/png" } "u1" 0 =
      (Except.error { status := 404, detail := "Image configuration not found" },
       { store := [], files := [] }) ∧
    reset_website_image { store := [], files := [] } "missing_slot" 0 =
      (Except.error { status := 404, detail := "Image configuration not found" },
       { store := [], files := [] }) :=
  upload_reset_unknown_slot { store := [], files := [] } "missing_slot" (by rfl)
    { filename := some "a.png", content_type := some "image/png" } "u1" 0

/-- C4: for a catalog slot id, upload fails with HTTP 400 ("File must be
an image") whenever the declared content type is absent or does not start
with "image/", and the state — no file written, store untouched — is
returned unchanged. -/
theorem upload_rejects_non_image (st : RegistryState) (slot : String) (cfg : SlotConfig)
    (hcfg : configLookup slot = some cfg) (file : UploadFile)
    (hct : isImageContentType file.content_type = false) (uuid : String) (t : Nat) :
    upload_website_image st slot file uuid t =
      (Except.error { status := 400, detail := "File must be an image" }, st) := by
  simp [upload_website_image, hcfg, hct]

/-- C4 witness: slot "logo" with a text content type and with an absent
content type, both rejected with 400 on the empty state. -/
theorem upload_rejects_non_image_witness :
    upload_website_image { store := [], files := [] } "logo"
        { filename := some "a.txt", content_type := some "text/plain" } "u1" 0 =
      (Except.error { status := 400, detail := "File must be an image" },
       { store := [], files := [] }) ∧
    upload_website_image { store := [], files := [] } "logo"
        { filename := some "a.jpg", content_type := none } "u1" 0 =
      (Except.error { status := 400, detail := "File must be an image" },
       { store := [], files := [] }) :=
  ⟨upload_rejects_non_image { store := [], files := [] } "logo"
      { name := "Company Logo",
        description := "Main company logo displayed in header and footer",
        default_url := "/mechgenz-logo.jpg",
        locations := ["Header", "Footer", "Admin Panel"],
        recommended_size := "200x200px",
        category := "branding" } (by rfl)
      { filename := some "a.txt", content_type := some "text/plain" } (by rfl) "u1" 0,
   upload_rejects_non_image { store := [], files := [] } "logo"
      { name := "Company Logo",
        description := "Main company logo displayed in header and footer",
        default_url := "/mechgenz-logo.jpg",
        locations := ["Header", "Footer", "Admin Panel"],
        recommended_size := "200x200px",
        category := "branding" } (by rfl)
      { filename := some "a.jpg", content_type := none } (by rfl) "u1" 0⟩

/-- C9: any delete_type outside the two accepted modes makes the delete
endpoint fail with HTTP 400 and leave the state unchanged, for every slot
id whether valid or not. -/
theorem delete_invalid_type (st : RegistryState) (slot dt : String) (t : Nat)
    (h1 : dt ≠ "image_only") (h2 : dt ≠ "complete") :
    delete_website_image st slot dt t =
      (Except.error { status := 400,
                      detail := "Invalid delete_type. Must be image_only or complete" }, st) := by
  simp [delete_website_image, h1, h2]

/-- C9 witness: delete_type "foo" on a catalog slot and on an unknown
slot, both rejected with 400 on the empty state. -/
theorem delete_invalid_type_witness :
    delete_website_image { store := [], files := [] } "logo" "foo" 0 =
      (Except.error { status := 400,
                      detail := "Invalid delete_type. Must be image_only or complete" },
       { store := [], files := [] }) ∧
    delete_website_image { store := [], files := [] } "missing_slot" "foo" 0 =
      (Except.error { status := 400,
                      detail := "Invalid delete_type. Must be image_only or complete" },
       { store := [], files := [] }) :=
  ⟨delete_invalid_type { store := [], files := [] } "logo" "foo" 0 (by decide) (by decide),
   delete_invalid_type { store := [], files := [] } "missing_slot" "foo" 0 (by decide) (by decide)⟩

/-- C10: the catalog-membership check precedes the content-type check in
the upload handler — an unknown slot id yields the 404 error whatever the
file looks like, and conversely a 400 content-type error can only arise
for a slot id present in the catalog. -/
theorem upload_checks_catalog_before_content_type (st : RegistryState) (slot : String)
    (file : UploadFile) (uuid : String) (t : Nat) :
    (configLookup slot = none →
      (upload_website_image st slot file uuid t).1 =
        Except.error { status := 404, detail := "Image configuration not found" }) ∧
    ((upload_website_image st slot file uuid t).1 =
        Except.error { status := 400, detail := "File must be an image" } →
      (configLookup slot).isSome = true) := by
  constructor
  · intro h
    simp [upload_website_image, h]
  · intro h
    cases hc : configLookup slot with
    | none => simp [upload_website_image, hc] at h
    | some cfg => simp [hc]

/-- C10 witness: an unknown slot with an invalid content type still gets
404 (not 400), and a 400 rejection at slot "logo" certifies catalog
membership. -/
theorem upload_checks_catalog_before_content_type_witness :
    (upload_website_image { store := [], files := [] } "missing_slot"
        { filename := some "a.txt", content_type := some "text/plain" } "u1" 0).1 =
      Except.error { status := 404, detail := "Image configuration not found" } ∧
    (configLookup "logo").isSome = true :=
  ⟨(upload_checks_catalog_before_content_type { store := [], files := [] } "missing_slot"
      { filename := some "a.txt", content_type := some "text/plain" } "u1" 0).1 (by rfl),
   (upload_checks_catalog_before_content_type { store := [], files := [] } "logo"
      { filename := some "a.txt", content_type := some "text/plain" } "u1" 0).2 (by rfl)⟩

/-- C6: when no override record exists for a slot id, the metadata-update
endpoint and the reset endpoint both fail with HTTP 404 and leave the
state unchanged — neither materializes a record from the catalog (unlike
upload, which creates one). -/
theorem update_reset_require_record (st : RegistryState) (slot : String)
    (h : findOne st.store slot = none) (nm desc : String) (t : Nat) :
    update_website_image st slot nm desc t =
      (Except.error { status := 404, detail := "Image not found" }, st) ∧
    (∃ msg, reset_website_image st slot t =
      (Except.error { status := 404, detail := msg }, st)) := by
  constructor
  · have hupd := updateOneSet_of_findOne_none
      (f := fun d => { d with name := nm, description := desc, updated_at := t }) h
    simp [update_website_image, hupd]
  · cases hc : configLookup slot with
    | none =>
      exact ⟨"Image configuration not found", by simp [reset_website_image, hc]⟩
    | some cfg =>
      have hupd := updateOneSet_of_findOne_none
        (f := fun d => { d with current_url := cfg.default_url, updated_at := t }) h
      exact ⟨"Image not found", by simp [reset_website_image, hc, hupd]⟩

/-- C6 witness: on the empty store, updating or resetting catalog slot
"logo" fails with 404 without creating a record. -/
theorem update_reset_require_record_witness :
    update_website_image emptyState "logo" "New Name" "New Desc" 0 =
      (Except.error { status := 404, detail := "Image not found" }, emptyState) ∧
    (∃ msg, reset_website_image emptyState "logo" 0 =
      (Except.error { status := 404, detail := msg }, emptyState)) :=
  update_reset_require_record emptyState "logo" (by rfl) "New Name" "New Desc" 0

/-- C5: a successful upload upserts the override record: when no record
exists the store is extended by a document built from the catalog
metadata whose current_url is the generated "/images/..." URL; when a
record exists only its current_url and updated_at change, every other
field being preserved. -/
theorem upload_upserts (st : RegistryState) (slot : String) (cfg : SlotConfig)
    (hcfg : configLookup slot = some cfg) (file : UploadFile)
    (hct : isImageContentType file.content_type = true) (uuid : String) (t : Nat) :
    (upload_website_image st slot file uuid t).1 =
      Except.ok { success := true, message := "Image uploaded successfully",
                  new_url := "/images/" ++ (uuid ++ uploadExt file) } ∧
    (findOne st.store slot = none →
      (upload_website_image st slot file uuid t).2.store =
        st.store ++ [mkImageDoc slot cfg ("/images/" ++ (uuid ++ uploadExt file)) t]) ∧
    (∀ d, findOne st.store slot = some d →
      findOne (upload_website_image st slot file uuid t).2.store slot =
        some { d with current_url := "/images/" ++ (uuid ++ uploadExt file), updated_at := t }) := by
  cases hfind : findOne st.store slot with
  | none =>
    refine ⟨?_, ?_, ?_⟩
    · simp [upload_website_image, hcfg, hct, writeFile_store, hfind]
    · intro _
      simp [upload_website_image, hcfg, hct, writeFile_store, hfind]
    · intro d hd
      exact Option.noConfusion hd
  | some d0 =>
    have hupd := updateOneSet_of_findOne_some
      (f := fun d => { d with current_url := "/images/" ++ (uuid ++ uploadExt file), updated_at := t })
      (fun e => rfl) hfind
    refine ⟨?_, ?_, ?_⟩
    · simp [upload_website_image, hcfg, hct, writeFile_store, hfind]
    · intro hnone
      exact Option.noConfusion hnone
    · intro d hd
      obtain rfl : d0 = d := by injection hd
      have hstore : (upload_website_image st slot file uuid t).2.store =
          (updateOneSet st.store slot
            (fun d => { d with current_url := "/images/" ++ (uuid ++ uploadExt file),
                               updated_at := t })).1 := by
        simp [upload_website_image, hcfg, hct, writeFile_store, hfind]
      rw [hstore]
      exact hupd.2

/-- C5 witness: uploading to "logo" on the empty store creates the
catalog-derived record, and on a store already holding a record it
patches only current_url and updated_at. -/
theorem upload_upserts_witness :
    (upload_website_image emptyState "logo" imgFile "uuid1" 7).2.store =
      emptyState.store ++ [mkImageDoc "logo" logoCfg ("/images/" ++ ("uuid1" ++ uploadExt imgFile)) 7] ∧
    findOne (upload_website_image oneState "logo" imgFile "uuid1" 7).2.store "logo" =
      some { logoDoc with current_url := "/images/" ++ ("uuid1" ++ uploadExt imgFile), updated_at := 7 } :=
  ⟨((upload_upserts emptyState "logo" logoCfg (by rfl) imgFile (by rfl) "uuid1" 7).2.1) (by rfl),
   ((upload_upserts oneState "logo" logoCfg (by rfl) imgFile (by rfl) "uuid1" 7).2.2) logoDoc (by rfl)⟩

/-- After a successful upload the slot is guaranteed to have an override
record (whether it was created or patched). -/
theorem upload_record_exists (st : RegistryState) (slot : String) (cfg : SlotConfig)
    (hcfg : configLookup slot = some cfg) (file : UploadFile)
    (hct : isImageContentType file.content_type = true) (uuid : String) (t : Nat) :
    exceptIsOk (upload_website_image st slot file uuid t).1 = true ∧
    ∃ d0, findOne (upload_website_image st slot file uuid t).2.store slot = some d0 := by
  cases hfind : findOne st.store slot with
  | none =>
    refine ⟨by simp [upload_website_image, hcfg, hct, writeFile_store, hfind, exceptIsOk], ?_⟩
    have hstore : (upload_website_image st slot file uuid t).2.store =
        st.store ++ [mkImageDoc slot cfg ("/images/" ++ (uuid ++ uploadExt file)) t] := by
      simp [upload_website_image, hcfg, hct, writeFile_store, hfind]
    rw [hstore, findOne_append_single_of_none hfind]
    exact ⟨_, by rw [if_pos (show (mkImageDoc slot cfg ("/images/" ++ (uuid ++ uploadExt file)) t).id = slot from rfl)]⟩
  | some d0 =>
    have hupd := updateOneSet_of_findOne_some
      (f := fun d => { d with current_url := "/images/" ++ (uuid ++ uploadExt file), updated_at := t })
      (fun e => rfl) hfind
    refine ⟨by simp [upload_website_image, hcfg, hct, writeFile_store, hfind, exceptIsOk], ?_⟩
    have hstore : (upload_website_image st slot file uuid t).2.store =
        (updateOneSet st.store slot
          (fun d => { d with current_url := "/images/" ++ (uuid ++ uploadExt file),
                             updated_at := t })).1 := by
      simp [upload_website_image, hcfg, hct, writeFile_store, hfind]
    rw [hstore]
    exact ⟨_, hupd.2⟩

/-- Resetting a slot that has an override record succeeds and rewrites
its current_url to the catalog default. -/
theorem reset_sets_default (st : RegistryState) (slot : String) (cfg : SlotConfig)
    (hcfg : configLookup slot = some cfg) (d0 : ImageDoc)
    (h : findOne st.store slot = some d0) (t : Nat) :
    (reset_website_image st slot t).1 =
      Except.ok { success := true, message := "Image reset to default",
                  default_url := cfg.default_url } ∧
    findOne (reset_website_image st slot t).2.store slot =
      some { d0 with current_url := cfg.default_url, updated_at := t } := by
  have hupd := updateOneSet_of_findOne_some
    (f := fun d => { d with current_url := cfg.default_url, updated_at := t }) (fun e => rfl) h
  constructor
  · simp [reset_website_image, hcfg, hupd.1]
  · have hstore : (reset_website_image st slot t).2.store =
        (updateOneSet st.store slot
          (fun d => { d with current_url := cfg.default_url, updated_at := t })).1 := by
      simp [reset_website_image, hcfg, hupd.1]
    rw [hstore]
    exact hupd.2

/-- C2: for a catalog slot and an image file, Upload followed by Reset
succeeds (the reset finds the record the upload guaranteed) and leaves
the slot's override record with current_url equal to the catalog's
default_url; nothing is claimed about the uploaded physical file. -/
theorem upload_then_reset (st : RegistryState) (slot : String) (cfg : SlotConfig)
    (hcfg : configLookup slot = some cfg) (file : UploadFile)
    (hct : isImageContentType file.content_type = true) (uuid : String) (t1 t2 : Nat) :
    exceptIsOk (upload_website_image st slot file uuid t1).1 = true ∧
    exceptIsOk (reset_website_image (upload_website_image st slot file uuid t1).2 slot t2).1 = true ∧
    ∃ d, findOne (reset_website_image (upload_website_image st slot file uuid t1).2 slot t2).2.store slot
        = some d ∧ d.current_url = cfg.default_url := by
  obtain ⟨hok, d0, hd0⟩ := upload_record_exists st slot cfg hcfg file hct uuid t1
  obtain ⟨hr1, hr2⟩ := reset_sets_default _ slot cfg hcfg d0 hd0 t2
  refine ⟨hok, ?_, ⟨_, hr2, rfl⟩⟩
  rw [hr1]
  rfl

/-- C2 witness: uploading an image to "logo" on the empty state and then
resetting it yields a record whose current_url is the catalog default. -/
theorem upload_then_reset_witness :
    configLookup "logo" = some logoCfg ∧
    isImageContentType imgFile.content_type = true ∧
    (exceptIsOk (upload_website_image emptyState "logo" imgFile "uuid1" 0).1 = true ∧
     exceptIsOk (reset_website_image (upload_website_image emptyState "logo" imgFile "uuid1" 0).2 "logo" 1).1 = true ∧
     ∃ d, findOne (reset_website_image (upload_website_image emptyState "logo" imgFile "uuid1" 0).2 "logo" 1).2.store "logo"
        = some d ∧ d.current_url = logoCfg.default_url) :=
  ⟨by rfl, by rfl, upload_then_reset emptyState "logo" logoCfg (by rfl) imgFile (by rfl) "uuid1" 0 1⟩

/-- C7: complete delete succeeds for every slot id — catalog member or
not, record present or not (given the Mongo invariant that the stored
_id values are distinct) — and is idempotent: a second complete delete
succeeds as a no-op, returning the already-deleted message and leaving
the state unchanged. -/
theorem delete_complete_idempotent (st : RegistryState) (slot : String) (t1 t2 : Nat)
    (hnd : (st.store.map ImageDoc.id).Nodup) :
    exceptIsOk (delete_website_image st slot "complete" t1).1 = true ∧
    delete_website_image (delete_website_image st slot "complete" t1).2 slot "complete" t2 =
      (Except.ok { success := true, message := "Image configuration was already deleted",
                   action := "complete", default_url := none },
       (delete_website_image st slot "complete" t1).2) := by
  cases hfind : findOne st.store slot with
  | none =>
    have h1 : delete_website_image st slot "complete" t1 =
        (Except.ok { success := true, message := "Image configuration was already deleted",
                     action := "complete", default_url := none }, st) := by
      simp [delete_website_image, hfind]
    rw [h1]
    exact ⟨rfl, by simp [delete_website_image, hfind]⟩
  | some d0 =>
    have hcnt : (deleteOne st.store slot).2 = 1 := deleteOne_count_of_findOne_some hfind
    have h1 : delete_website_image st slot "complete" t1 =
        (Except.ok { success := true, message := "Image configuration deleted completely",
                     action := "complete", default_url := none },
         { deleteLocalFile st d0.current_url with store := (deleteOne st.store slot).1 }) := by
      simp [delete_website_image, hfind, deleteLocalFile_store, hcnt]
    have hnone : findOne (deleteOne st.store slot).1 slot = none :=
      findOne_deleteOne_of_nodup slot hnd
    rw [h1]
    exact ⟨rfl, by simp [delete_website_image, hnone]⟩

/-- C7 witness: complete deletion of slot "logo" from a store holding
its record succeeds twice, the second call a no-op; hypotheses are
discharged on the concrete one-record state. -/
theorem delete_complete_idempotent_witness :
    exceptIsOk (delete_website_image oneState "logo" "complete" 3).1 = true ∧
    delete_website_image (delete_website_image oneState "logo" "complete" 3).2 "logo" "complete" 4 =
      (Except.ok { success := true, message := "Image configuration was already deleted",
                   action := "complete", default_url := none },
       (delete_website_image oneState "logo" "complete" 3).2) :=
  delete_complete_idempotent oneState "logo" 3 4 (by decide)

/-- C8: image_only delete fails with 404 for slot ids outside the
catalog; for catalog slots it always succeeds — materializing a record
with current_url equal to the catalog default when none exists, and
patching the existing record's current_url back to the catalog default
(touching only current_url and updated_at) when one does. -/
theorem delete_image_only_spec (st : RegistryState) (slot : String) (t : Nat) :
    (configLookup slot = none →
      delete_website_image st slot "image_only" t =
        (Except.error { status := 404, detail := "Image configuration not found" }, st)) ∧
    (∀ cfg, configLookup slot = some cfg →
      exceptIsOk (delete_website_image st slot "image_only" t).1 = true ∧
      (findOne st.store slot = none →
        (delete_website_image st slot "image_only" t).2.store =
          st.store ++ [mkImageDoc slot cfg cfg.default_url t]) ∧
      (∀ d, findOne st.store slot = some d →
        findOne (delete_website_image st slot "image_only" t).2.store slot =
          some { d with current_url := cfg.default_url, updated_at := t })) := by
  refine ⟨?_, ?_⟩
  · intro h
    simp [delete_website_image, h]
  · intro cfg hcfg
    cases hfind : findOne st.store slot with
    | none =>
      refine ⟨?_, ?_, ?_⟩
      · simp [delete_website_image, hcfg, hfind, exceptIsOk]
      · intro _
        simp [delete_website_image, hcfg, hfind]
      · intro d hd
        exact Option.noConfusion hd
    | some d0 =>
      have hupd := updateOneSet_of_findOne_some
        (f := fun d => { d with current_url := cfg.default_url, updated_at := t })
        (fun e => rfl) hfind
      refine ⟨?_, ?_, ?_⟩
      · simp [delete_website_image, hcfg, hfind, exceptIsOk]
      · intro hnone
        exact Option.noConfusion hnone
      · intro d hd
        obtain rfl : d0 = d := by injection hd
        have hstore : (delete_website_image st slot "image_only" t).2.store =
            (updateOneSet st.store slot
              (fun d => { d with current_url := cfg.default_url, updated_at := t })).1 := by
          simp [delete_website_image, hcfg, hfind, deleteLocalFile_store]
        rw [hstore]
        exact hupd.2

/-- C8 witness: image_only delete of an unknown slot fails with 404; on
the empty store it materializes the catalog-default record for "logo";
on a store holding a custom record it patches current_url back to the
default. -/
theorem delete_image_only_spec_witness :
    delete_website_image emptyState "missing_slot" "image_only" 0 =
      (Except.error { status := 404, detail := "Image configuration not found" }, emptyState) ∧
    (delete_website_image emptyState "logo" "image_only" 0).2.store =
      emptyState.store ++ [mkImageDoc "logo" logoCfg logoCfg.default_url 0] ∧
    findOne (delete_website_image oneState "logo" "image_only" 0).2.store "logo" =
      some { logoDoc with current_url := logoCfg.default_url, updated_at := 0 } :=
  ⟨(delete_image_only_spec emptyState "missing_slot" 0).1 (by rfl),
   (((delete_image_only_spec emptyState "logo" 0).2 logoCfg (by rfl)).2.1) (by rfl),
   (((delete_image_only_spec oneState "logo" 0).2 logoCfg (by rfl)).2.2) logoDoc (by rfl)⟩

end Mechgenz
